import Mathlib

/-!
Verification of the two MCP adapter servers (plain Azure AI Search server and
Azure AI Agent Service server) against their natural-language specification.

The Python sources are shallowly embedded:
* Python `str` is modelled as Lean `String` (a list of characters).
* Python slicing `s[:n]` is `pyTake n s`.
* Python `str(i)` for a natural number is `strOfNat`, and the f-string
  fixed-point format `f"{x:.2f}"` is `twoDecString` over `ℚ` (the claims under
  verification only depend on the decimal shape of the rendering, not on the
  binary-float tie-breaking of CPython).
* The remote Azure services are oracles: the plain search index is a function
  from the emitted request to a result list or a raised fault, and the agent
  service is a record of fallible operations (`AgentEnv`).  Raising a Python
  exception is modelled as `Except.error`.
* The agent wrappers additionally record, as ghost state, whether the remote
  agent resource was created and whether a delete call was issued for it
  (`AgentCallResult.agentCreated` / `agentDeleted`).
-/

/-- Python truthiness of an optional string (`os.getenv` result):
`None` and the empty string are falsy. -/
def pyTruthy : Option String → Bool
  | none => false
  | some s => !s.isEmpty

/-- Python slicing `s[:n]`. -/
def pyTake (n : Nat) (s : String) : String :=
  String.mk (s.data.take n)

/-- Decimal digit character, used by the decimal renderers. -/
def digitCh (n : Nat) : Char :=
  match n with
  | 0 => '0'
  | 1 => '1'
  | 2 => '2'
  | 3 => '3'
  | 4 => '4'
  | 5 => '5'
  | 6 => '6'
  | 7 => '7'
  | 8 => '8'
  | 9 => '9'
  | _ => '*'

/-- Fuel-driven decimal digit list of a natural number (most significant
digit first).  With fuel at least the digit count it renders `n` exactly as
Python `str(n)` does. -/
def natDigitsAux : Nat → Nat → List Char
  | 0, _ => []
  | fuel + 1, n =>
    if n < 10 then [digitCh n]
    else natDigitsAux fuel (n / 10) ++ [digitCh (n % 10)]

/-- Python `str(n)` for a natural number. -/
def strOfNat (n : Nat) : String :=
  String.mk (natDigitsAux (n + 1) n)

/-- The number of hundredths in `q`, rounded to the nearest integer:
`⌊100 * q + 1/2⌋`, computed executably with integer floor division (Rat
arithmetic itself is irreducible and would block kernel evaluation). -/
def scaledHundredths (q : ℚ) : Int :=
  Int.fdiv (200 * q.num + (q.den : Int)) (2 * (q.den : Int))

/-- Python `f"{x:.2f}"`: fixed-point rendering with exactly two digits after
the decimal point (rounding to the nearest hundredth). -/
def twoDecString (q : ℚ) : String :=
  let scaled : Int := scaledHundredths q
  let sign : String := if scaled < 0 then "-" else ""
  let n : Nat := scaled.natAbs
  sign ++ strOfNat (n / 100) ++ "." ++
    (if n % 100 < 10 then "0" else "") ++ strOfNat (n % 100)

/-- Does `pat` occur as a contiguous substring of `s`? -/
def containsSub (pat : List Char) : List Char → Bool
  | [] => pat.isEmpty
  | c :: rest => pat.isPrefixOf (c :: rest) || containsSub pat rest

/-- Number of positions of `s` at which `pat` occurs as a prefix. -/
def countOccur (pat : List Char) : List Char → Nat
  | [] => 0
  | c :: rest =>
    (if pat.isPrefixOf (c :: rest) then 1 else 0) + countOccur pat rest

/-! ## Plain search server (`azure_search_server.py`) -/

/-- A raw record coming back from the remote index; a `none` field models a
key absent from the result dictionary (`result.get` falls back to the
default). -/
structure RawResult where
  title : Option String
  chunk : Option String
  score : Option ℚ
deriving DecidableEq

/-- A formatted record as produced by `AzureSearchClient._format_results`. -/
structure FormattedResult where
  title : String
  content : String
  score : ℚ
deriving DecidableEq

/-- The vendor SDK vector query object built by `vector_search` /
`hybrid_search`. -/
structure VectorizableTextQuery where
  text : String
  k_nearest_neighbors : Nat
  fields : String
deriving DecidableEq

/-- The request issued to the remote index by `SearchClient.search`. -/
structure SearchRequest where
  search_text : Option String
  vector_queries : List VectorizableTextQuery
  top : Nat
  select : List String
deriving DecidableEq

/-- The remote index: maps the emitted request to a result list, or raises. -/
def SearchRemote : Type :=
  SearchRequest → Except String (List RawResult)

/-- Request emitted by `AzureSearchClient.keyword_search`. -/
def keywordRequest (query : String) (top : Nat) : SearchRequest :=
  { search_text := some query, vector_queries := [], top := top,
    select := ["title", "chunk"] }

/-- Request emitted by `AzureSearchClient.vector_search`. -/
def vectorRequest (query : String) (top : Nat) (vector_field : String) :
    SearchRequest :=
  { search_text := none,
    vector_queries := [⟨query, 50, vector_field⟩], top := top,
    select := ["title", "chunk"] }

/-- Request emitted by `AzureSearchClient.hybrid_search`. -/
def hybridRequest (query : String) (top : Nat) (vector_field : String) :
    SearchRequest :=
  { search_text := some query,
    vector_queries := [⟨query, 50, vector_field⟩], top := top,
    select := ["title", "chunk"] }

/-- One iteration of the loop body of `AzureSearchClient._format_results`:
defaults for missing fields, and the `[:1000]` content truncation. -/
def formatItem (r : RawResult) : FormattedResult :=
  { title := r.title.getD "Unknown"
  , content := pyTake 1000 (r.chunk.getD "")
  , score := r.score.getD 0 }

/-- `AzureSearchClient._format_results`. -/
def _format_results (results : List RawResult) : List FormattedResult :=
  results.map formatItem

/-- `AzureSearchClient.keyword_search`. -/
def AzureSearchClient.keyword_search (remote : SearchRemote) (query : String)
    (top : Nat) : Except String (List FormattedResult) :=
  match remote (keywordRequest query top) with
  | .error e => .error e
  | .ok results => .ok (_format_results results)

/-- `AzureSearchClient.vector_search` (the caller supplies the
`vector_field`, which defaults to `"text_vector"` at every call site in the
source). -/
def AzureSearchClient.vector_search (remote : SearchRemote) (query : String)
    (top : Nat) (vector_field : String) :
    Except String (List FormattedResult) :=
  match remote (vectorRequest query top vector_field) with
  | .error e => .error e
  | .ok results => .ok (_format_results results)

/-- `AzureSearchClient.hybrid_search`. -/
def AzureSearchClient.hybrid_search (remote : SearchRemote) (query : String)
    (top : Nat) (vector_field : String) :
    Except String (List FormattedResult) :=
  match remote (hybridRequest query top vector_field) with
  | .error e => .error e
  | .ok results => .ok (_format_results results)

/-- Configuration kept by a successfully constructed `AzureSearchClient`. -/
structure SearchConfig where
  endpoint : String
  index_name : String
deriving DecidableEq

/-- `AzureSearchClient.__init__`: reads the three required environment
variables; if any is missing or empty it raises a `ValueError` whose message
lists the missing entries under the labels used by the source (note the
source reads `AZURE_SEARCH_INDEX_NAME` but reports it as
`AZURE_SEARCH_INDEX`). -/
def AzureSearchClient.init (env : String → Option String) :
    Except String SearchConfig :=
  let endpoint := env "AZURE_SEARCH_SERVICE_ENDPOINT"
  let index_name := env "AZURE_SEARCH_INDEX_NAME"
  let api_key := env "AZURE_SEARCH_API_KEY"
  if pyTruthy endpoint && pyTruthy index_name && pyTruthy api_key then
    .ok { endpoint := endpoint.getD "", index_name := index_name.getD "" }
  else
    let missing :=
      (if !pyTruthy endpoint then ["AZURE_SEARCH_SERVICE_ENDPOINT"] else []) ++
      (if !pyTruthy index_name then ["AZURE_SEARCH_INDEX"] else []) ++
      (if !pyTruthy api_key then ["AZURE_SEARCH_API_KEY"] else [])
    .error ("Missing environment variables: " ++ String.intercalate ", " missing)

/-- Module-level initialization of `search_client`: on any construction
failure the global is left as `None` (here, the remote handle is only
available when construction succeeded). -/
def searchClientGlobal (env : String → Option String) (remote : SearchRemote) :
    Option SearchRemote :=
  match AzureSearchClient.init env with
  | .ok _ => some remote
  | .error _ => none

/-- `_format_results_as_markdown`, one numbered section (the loop body). -/
def sectionFor (i : Nat) (r : FormattedResult) : String :=
  "### " ++ strOfNat i ++ ". " ++ r.title ++ "\n" ++
  "Score: " ++ twoDecString r.score ++ "\n\n" ++
  r.content ++ "\n\n" ++
  "---\n\n"

/-- `_format_results_as_markdown`, the `enumerate(results, 1)` loop. -/
def sectionsFrom (i : Nat) : List FormattedResult → String
  | [] => ""
  | r :: rs => sectionFor i r ++ sectionsFrom (i + 1) rs

/-- `_format_results_as_markdown`. -/
def _format_results_as_markdown (results : List FormattedResult)
    (search_type : String) : String :=
  if results.isEmpty then
    "No results found for your query using " ++ search_type ++ "."
  else
    "## " ++ search_type ++ " Results\n\n" ++ sectionsFrom 1 results

/-- Fixed reply of every plain-search tool when the module-level client is
`None`. -/
def searchNotInitializedMsg : String :=
  "Error: Azure Search client is not initialized. Check server logs for details."

/-- The `keyword_search` MCP tool. -/
def keyword_search_tool (sc : Option SearchRemote) (query : String)
    (top : Nat) : String :=
  match sc with
  | none => searchNotInitializedMsg
  | some remote =>
    match AzureSearchClient.keyword_search remote query top with
    | .ok results => _format_results_as_markdown results "Keyword Search"
    | .error e => "Error performing keyword search: " ++ e

/-- The `vector_search` MCP tool. -/
def vector_search_tool (sc : Option SearchRemote) (query : String)
    (top : Nat) : String :=
  match sc with
  | none => searchNotInitializedMsg
  | some remote =>
    match AzureSearchClient.vector_search remote query top "text_vector" with
    | .ok results => _format_results_as_markdown results "Vector Search"
    | .error e => "Error performing vector search: " ++ e

/-- The `hybrid_search` MCP tool. -/
def hybrid_search_tool (sc : Option SearchRemote) (query : String)
    (top : Nat) : String :=
  match sc with
  | none => searchNotInitializedMsg
  | some remote =>
    match AzureSearchClient.hybrid_search remote query top "text_vector" with
    | .ok results => _format_results_as_markdown results "Hybrid Search"
    | .error e => "Error performing hybrid search: " ++ e

/-! ## Agent service server (`azure_ai_agent_service_server.py`) -/

/-- A remote connection object returned by `client.connections.get`. -/
structure Connection where
  id : String
deriving DecidableEq

/-- The run object returned by `create_and_process_run`. -/
structure RunResult where
  status : String
  last_error : String
deriving DecidableEq

/-- One text segment of an agent message. -/
structure TextMessage where
  value : String
deriving DecidableEq

/-- One URL citation of an agent message (the `url_citation` payload of a
citation entry). -/
structure UrlCitation where
  title : String
  url : String
deriving DecidableEq

/-- The last agent message of the thread: its text segments and its URL
citation entries (source field `url_citation_annotations`, shortened here). -/
structure ResponseMessage where
  text_messages : List TextMessage
  url_citations : List UrlCitation
deriving DecidableEq

/-- Oracle for the remote agent service.  Each field models one remote call of
the wrapper; `Except.error` models the call raising a Python exception.
`getConnection` returning `.ok none` models `connections.get` yielding a
falsy value. -/
structure AgentEnv where
  getConnection : String → Except String (Option Connection)
  createAgent : String → String → Except String String
  createThread : Except String String
  createMessage : String → String → Except String Unit
  createAndProcessRun : String → String → Except String RunResult
  listMessages : String → Except String (Option ResponseMessage)
  deleteAgent : String → Except String Unit

deriving instance DecidableEq for Except

/-- Result of one wrapper call, with ghost flags recording whether the remote
agent resource was created and whether a delete call was issued for it. -/
structure AgentCallResult where
  result : Except String String
  agentCreated : Bool
  agentDeleted : Bool
deriving DecidableEq

/-- Instruction string built by `AzureAIAgentClient.search_index`. -/
def searchInstructions (query : String) (top : Nat) : String :=
  "You are an Azure AI Search expert. Use the Azure AI Search Tool to find the most relevant information for: \x27" ++
  query ++
  "\x27. Return only the top " ++ strOfNat top ++
  " most relevant results. For each result, provide a title, content excerpt, and relevance score if available. Format your response as Markdown with each result clearly separated."

/-- Instruction string built by `AzureAIAgentClient.web_search`. -/
def webInstructions (query : String) : String :=
  "You are a helpful web search assistant. Use the Bing Web Grounding Tool to find the most current and accurate information for: \x27" ++
  query ++
  "\x27. Provide a comprehensive answer with citations to sources. Format your response as Markdown."

/-- Assembly of the agent response: concatenate the text segments, then append
one `Citation: [title](url)` line per citation entry. -/
def renderResponse : Option ResponseMessage → String
  | none => ""
  | some m =>
    let fromTexts :=
      m.text_messages.foldl (fun acc t => acc ++ t.value ++ "\n") ""
    m.url_citations.foldl
      (fun acc a => acc ++ "\nCitation: [" ++ a.title ++ "](" ++ a.url ++ ")\n")
      fromTexts

/-- `AzureAIAgentClient.search_index`. -/
def AzureAIAgentClient.search_index (env : AgentEnv)
    (search_connection_name index_name query : String) (top : Nat) :
    AgentCallResult :=
  match env.getConnection search_connection_name with
  | .error e => ⟨.error e, false, false⟩
  | .ok none =>
    ⟨.error ("Connection \x27" ++ search_connection_name ++ "\x27 not found"),
      false, false⟩
  | .ok (some conn) =>
    match env.createAgent (searchInstructions query top) conn.id with
    | .error e => ⟨.error e, false, false⟩
    | .ok agentId =>
      match env.createThread with
      | .error e => ⟨.error e, true, false⟩
      | .ok threadId =>
        match env.createMessage threadId query with
        | .error e => ⟨.error e, true, false⟩
        | .ok _ =>
          match env.createAndProcessRun threadId agentId with
          | .error e => ⟨.error e, true, false⟩
          | .ok run =>
            if run.status == "failed" then
              ⟨.ok ("Search failed: " ++ run.last_error), true, false⟩
            else
              match env.listMessages threadId with
              | .error e => ⟨.error e, true, false⟩
              | .ok msg =>
                match env.deleteAgent agentId with
                | .error e => ⟨.error e, true, true⟩
                | .ok _ => ⟨.ok (renderResponse msg), true, true⟩

/-- `AzureAIAgentClient.web_search`. -/
def AzureAIAgentClient.web_search (env : AgentEnv)
    (bing_connection_name query : String) : AgentCallResult :=
  match env.getConnection bing_connection_name with
  | .error e => ⟨.error e, false, false⟩
  | .ok none =>
    ⟨.error ("Connection \x27" ++ bing_connection_name ++ "\x27 not found"),
      false, false⟩
  | .ok (some conn) =>
    match env.createAgent (webInstructions query) conn.id with
    | .error e => ⟨.error e, false, false⟩
    | .ok agentId =>
      match env.createThread with
      | .error e => ⟨.error e, true, false⟩
      | .ok threadId =>
        match env.createMessage threadId query with
        | .error e => ⟨.error e, true, false⟩
        | .ok _ =>
          match env.createAndProcessRun threadId agentId with
          | .error e => ⟨.error e, true, false⟩
          | .ok run =>
            if run.status == "failed" then
              ⟨.ok ("Web search failed: " ++ run.last_error), true, false⟩
            else
              match env.listMessages threadId with
              | .error e => ⟨.error e, true, false⟩
              | .ok msg =>
                match env.deleteAgent agentId with
                | .error e => ⟨.error e, true, true⟩
                | .ok _ => ⟨.ok (renderResponse msg), true, true⟩

/-- The initialized module-level agent client: its remote oracle and the
configured connection and index names. -/
structure AgentClient where
  env : AgentEnv
  search_connection_name : String
  bing_connection_name : String
  index_name : String

/-- Fixed reply of the agent tools when the module-level client is `None`. -/
def agentNotInitializedMsg : String :=
  "Error: Azure AI Agent client is not initialized. Check server logs for details."

/-- The `search_index` MCP tool. -/
def search_index_tool (c : Option AgentClient) (query : String) (top : Nat) :
    String :=
  match c with
  | none => agentNotInitializedMsg
  | some cl =>
    match (AzureAIAgentClient.search_index cl.env cl.search_connection_name
        cl.index_name query top).result with
    | .ok results => "## Azure AI Search Results\n\n" ++ results
    | .error e => "Error performing index search: " ++ e

/-- The `web_search` MCP tool. -/
def web_search_tool (c : Option AgentClient) (query : String) : String :=
  match c with
  | none => agentNotInitializedMsg
  | some cl =>
    match (AzureAIAgentClient.web_search cl.env cl.bing_connection_name
        query).result with
    | .ok results => "## Bing Web Search Results\n\n" ++ results
    | .error e => "Error performing web search: " ++ e

/-! ## Helper lemmas -/

/-- The pattern that opens every numbered Markdown section. -/
def hashPat : List Char := "### ".data

theorem data_append_eq (a b : String) : (a ++ b).data = a.data ++ b.data := by
  cases a; cases b; rfl

theorem digitCh_ne_hash (n : Nat) : digitCh n ≠ '#' := by
  unfold digitCh; split <;> decide

theorem natDigitsAux_no_hash (fuel n : Nat) : '#' ∉ natDigitsAux fuel n := by
  induction fuel generalizing n with
  | zero => simp [natDigitsAux]
  | succ fuel ih =>
    simp only [natDigitsAux]
    split
    · simp only [List.mem_singleton]
      intro h; exact digitCh_ne_hash n h.symm
    · simp only [List.mem_append, List.mem_singleton]
      rintro (h | h)
      · exact ih _ h
      · exact digitCh_ne_hash _ h.symm

theorem strOfNat_no_hash (n : Nat) : '#' ∉ (strOfNat n).data :=
  natDigitsAux_no_hash _ _

theorem twoDecString_no_hash (q : ℚ) : '#' ∉ (twoDecString q).data := by
  simp only [twoDecString, data_append_eq, List.mem_append, not_or]
  refine ⟨⟨⟨⟨?_, strOfNat_no_hash _⟩, by decide⟩, ?_⟩, strOfNat_no_hash _⟩
  · split <;> decide
  · split <;> decide

theorem hash_isPrefixOf_false (c : Char) (t : List Char) (hc : c ≠ '#') :
    hashPat.isPrefixOf (c :: t) = false := by
  simp [hashPat, List.isPrefixOf]
  intro h
  exact absurd h.symm hc

theorem countOccur_no_hash (s : List Char) (h : '#' ∉ s) :
    countOccur hashPat s = 0 := by
  induction s with
  | nil => rfl
  | cons c rest ih =>
    simp only [List.mem_cons, not_or] at h
    simp only [countOccur, hash_isPrefixOf_false c rest (fun hc => h.1 hc.symm),
      if_neg Bool.false_ne_true, ih h.2]

theorem countOccur_append_no_hash (a b : List Char) (h : '#' ∉ a) :
    countOccur hashPat (a ++ b) = countOccur hashPat b := by
  induction a with
  | nil => rfl
  | cons c rest ih =>
    simp only [List.mem_cons, not_or] at h
    rw [List.cons_append, countOccur,
      hash_isPrefixOf_false c (rest ++ b) (fun hc => h.1 hc.symm)]
    simp [ih h.2]

theorem countOccur_heading (l : List Char) :
    countOccur hashPat ('#' :: '#' :: ' ' :: l) = countOccur hashPat l := by
  simp [countOccur, hashPat, List.isPrefixOf]

theorem countOccur_hashPat_append (l : List Char) :
    countOccur hashPat (hashPat ++ l) = 1 + countOccur hashPat l := by
  simp [countOccur, hashPat, List.isPrefixOf]

/-- Everything of a numbered section after its `"### "` marker. -/
def sectionTail (i : Nat) (r : FormattedResult) : String :=
  strOfNat i ++ ". " ++ r.title ++ "\n" ++ "Score: " ++ twoDecString r.score ++
    "\n\n" ++ r.content ++ "\n\n" ++ "---\n\n"

theorem sectionFor_data (i : Nat) (r : FormattedResult) :
    (sectionFor i r).data = hashPat ++ (sectionTail i r).data := by
  simp [sectionFor, sectionTail, hashPat, data_append_eq]

theorem sectionTail_no_hash (i : Nat) (r : FormattedResult)
    (ht : '#' ∉ r.title.data) (hc : '#' ∉ r.content.data) :
    '#' ∉ (sectionTail i r).data := by
  simp only [sectionTail, data_append_eq, List.mem_append, not_or]
  exact ⟨⟨⟨⟨⟨⟨⟨⟨⟨strOfNat_no_hash i, by decide⟩, ht⟩, by decide⟩, by decide⟩,
    twoDecString_no_hash r.score⟩, by decide⟩, hc⟩, by decide⟩, by decide⟩

theorem countOccur_sectionsFrom (rs : List FormattedResult) (i : Nat)
    (h : ∀ r ∈ rs, '#' ∉ r.title.data ∧ '#' ∉ r.content.data) :
    countOccur hashPat (sectionsFrom i rs).data = rs.length := by
  induction rs generalizing i with
  | nil => rfl
  | cons r rest ih =>
    have hr := h r (List.mem_cons_self r rest)
    have hrest : ∀ x ∈ rest, '#' ∉ x.title.data ∧ '#' ∉ x.content.data :=
      fun x hx => h x (List.mem_cons_of_mem r hx)
    rw [sectionsFrom, data_append_eq, sectionFor_data, List.append_assoc,
      countOccur_hashPat_append,
      countOccur_append_no_hash _ _ (sectionTail_no_hash i r hr.1 hr.2),
      ih (i + 1) hrest, List.length_cons]
    omega

/-! ## Concrete stubs used by witnesses and examples -/

/-- A stub index content with three records matching the query "laptop". -/
def laptopHits : List RawResult :=
  [⟨some "Laptop A", some "A powerful laptop", some (mkRat 19 20)⟩,
   ⟨some "Laptop B", some "A light laptop", some (mkRat 87 100)⟩,
   ⟨some "Laptop C", some "A budget laptop", some (mkRat 3 4)⟩]

/-- A stub remote index that holds `laptopHits` and honors the documented
meaning of the request's `top` parameter ("maximum number of results to
return"), as the real service does. -/
def laptopRemote : SearchRemote := fun req => .ok (laptopHits.take req.top)

/-! ## Claims about the plain search server -/

/-- C4: `vector_search` always requests exactly 50 nearest neighbors in its
vector query regardless of `top` (the fixed oversampling factor), and
whenever the remote index honors the request's `top` cap, the wrapper
returns at most `top` records. -/
theorem C4_vector_oversampling_and_cap (query : String) (top : Nat)
    (vector_field : String) (remote : SearchRemote) (raw : List RawResult)
    (hremote : remote (vectorRequest query top vector_field) = .ok raw)
    (hcap : raw.length ≤ top) :
    ((vectorRequest query top vector_field).vector_queries.map
        (fun v => v.k_nearest_neighbors) = [50])
    ∧ AzureSearchClient.vector_search remote query top vector_field
        = .ok (_format_results raw)
    ∧ (_format_results raw).length ≤ top := by
  refine ⟨rfl, ?_, ?_⟩
  · simp [AzureSearchClient.vector_search, hremote]
  · simpa [_format_results] using hcap

/-- C4 witness: the theorem applied to the laptop stub at `top = 2`. -/
theorem C4_vector_oversampling_and_cap_witness :
    (laptopRemote (vectorRequest "q" 2 "text_vector") = .ok (laptopHits.take 2))
    ∧ ((laptopHits.take 2).length ≤ 2)
    ∧ (((vectorRequest "q" 2 "text_vector").vector_queries.map
          (fun v => v.k_nearest_neighbors) = [50])
       ∧ AzureSearchClient.vector_search laptopRemote "q" 2 "text_vector"
           = .ok (_format_results (laptopHits.take 2))
       ∧ (_format_results (laptopHits.take 2)).length ≤ 2) :=
  ⟨by decide, by decide,
    C4_vector_oversampling_and_cap "q" 2 "text_vector" laptopRemote
      (laptopHits.take 2) (by decide) (by decide)⟩

theorem length_formatItem_content (x : RawResult) :
    (formatItem x).content.length ≤ 1000 := by
  show (String.mk ((x.chunk.getD "").data.take 1000)).length ≤ 1000
  simp only [String.length]
  exact List.length_take_le _ _

theorem mem_format_results_content (raw : List RawResult)
    (r : FormattedResult) (h : r ∈ _format_results raw) :
    r.content.length ≤ 1000 := by
  simp only [_format_results, List.mem_map] at h
  obtain ⟨x, _, rfl⟩ := h
  exact length_formatItem_content x

theorem keyword_search_ok_inv (remote : SearchRemote) (query : String)
    (top : Nat) (l : List FormattedResult)
    (h : AzureSearchClient.keyword_search remote query top = .ok l) :
    ∃ raw, remote (keywordRequest query top) = .ok raw
      ∧ l = _format_results raw := by
  unfold AzureSearchClient.keyword_search at h
  cases hrem : remote (keywordRequest query top) with
  | error e => rw [hrem] at h; simp at h
  | ok raw =>
    rw [hrem] at h
    simp only [Except.ok.injEq] at h
    exact ⟨raw, rfl, h.symm⟩

theorem vector_search_ok_inv (remote : SearchRemote) (query : String)
    (top : Nat) (vector_field : String) (l : List FormattedResult)
    (h : AzureSearchClient.vector_search remote query top vector_field
        = .ok l) :
    ∃ raw, remote (vectorRequest query top vector_field) = .ok raw
      ∧ l = _format_results raw := by
  unfold AzureSearchClient.vector_search at h
  cases hrem : remote (vectorRequest query top vector_field) with
  | error e => rw [hrem] at h; simp at h
  | ok raw =>
    rw [hrem] at h
    simp only [Except.ok.injEq] at h
    exact ⟨raw, rfl, h.symm⟩

theorem hybrid_search_ok_inv (remote : SearchRemote) (query : String)
    (top : Nat) (vector_field : String) (l : List FormattedResult)
    (h : AzureSearchClient.hybrid_search remote query top vector_field
        = .ok l) :
    ∃ raw, remote (hybridRequest query top vector_field) = .ok raw
      ∧ l = _format_results raw := by
  unfold AzureSearchClient.hybrid_search at h
  cases hrem : remote (hybridRequest query top vector_field) with
  | error e => rw [hrem] at h; simp at h
  | ok raw =>
    rw [hrem] at h
    simp only [Except.ok.injEq] at h
    exact ⟨raw, rfl, h.symm⟩

/-- C5: every record in the list returned by `keyword_search`,
`vector_search` or `hybrid_search` has a content field of length at most
1000 characters (the `[:1000]` truncation, applied once and never
re-expanded). -/
theorem C5_content_truncated (remote : SearchRemote)
    (query vector_field : String) (top : Nat) (l : List FormattedResult)
    (r : FormattedResult)
    (hop : AzureSearchClient.keyword_search remote query top = .ok l
      ∨ AzureSearchClient.vector_search remote query top vector_field = .ok l
      ∨ AzureSearchClient.hybrid_search remote query top vector_field = .ok l)
    (hr : r ∈ l) :
    r.content.length ≤ 1000 := by
  rcases hop with h | h | h
  · obtain ⟨raw, _, rfl⟩ := keyword_search_ok_inv remote query top l h
    exact mem_format_results_content raw r hr
  · obtain ⟨raw, _, rfl⟩ := vector_search_ok_inv remote query top vector_field l h
    exact mem_format_results_content raw r hr
  · obtain ⟨raw, _, rfl⟩ := hybrid_search_ok_inv remote query top vector_field l h
    exact mem_format_results_content raw r hr

/-- C5 witness: the theorem applied to the laptop stub, first result of a
keyword search. -/
theorem C5_content_truncated_witness :
    (AzureSearchClient.keyword_search laptopRemote "laptop" 2
        = .ok (_format_results (laptopHits.take 2)))
    ∧ (formatItem ⟨some "Laptop A", some "A powerful laptop",
        some (mkRat 19 20)⟩ ∈ _format_results (laptopHits.take 2))
    ∧ (formatItem ⟨some "Laptop A", some "A powerful laptop",
        some (mkRat 19 20)⟩).content.length ≤ 1000 :=
  ⟨by decide, by decide,
    C5_content_truncated laptopRemote "laptop" "text_vector" 2
      (_format_results (laptopHits.take 2))
      (formatItem ⟨some "Laptop A", some "A powerful laptop",
        some (mkRat 19 20)⟩)
      (Or.inl (by decide)) (by decide)⟩

/-- C9: `_format_results` is total over records with missing fields: a
missing title becomes `"Unknown"`, a missing content excerpt becomes the
empty string, and a missing relevance score becomes `0`. -/
theorem C9_formatter_defaults (r : RawResult) :
    (r.title = none → (formatItem r).title = "Unknown")
    ∧ (r.chunk = none → (formatItem r).content = "")
    ∧ (r.score = none → (formatItem r).score = 0) := by
  refine ⟨fun h => ?_, fun h => ?_, fun h => ?_⟩ <;>
    simp [formatItem, h, pyTake]

/-- C9 witness: the theorem applied to the record with all fields absent. -/
theorem C9_formatter_defaults_witness :
    ((⟨none, none, none⟩ : RawResult).title = none)
    ∧ ((⟨none, none, none⟩ : RawResult).chunk = none)
    ∧ ((⟨none, none, none⟩ : RawResult).score = none)
    ∧ (formatItem ⟨none, none, none⟩).title = "Unknown"
    ∧ (formatItem ⟨none, none, none⟩).content = ""
    ∧ (formatItem ⟨none, none, none⟩).score = 0 :=
  ⟨rfl, rfl, rfl,
    (C9_formatter_defaults ⟨none, none, none⟩).1 rfl,
    (C9_formatter_defaults ⟨none, none, none⟩).2.1 rfl,
    (C9_formatter_defaults ⟨none, none, none⟩).2.2 rfl⟩

/-- C6: rendering an empty result list yields exactly the single "no
results" sentence naming the mode and contains no `#` at all (hence no
Markdown heading and no numbered section); rendering a non-empty list
yields the mode heading followed by exactly one numbered `"### i."` section
per record (counted via `hashPat` occurrences; the mode name and record
fields are assumed free of `#`, as all of the server's mode names and clean
index content are). -/
theorem C6_markdown_rendering (st : String) (results : List FormattedResult)
    (hst : '#' ∉ st.data)
    (hclean : ∀ r ∈ results, '#' ∉ r.title.data ∧ '#' ∉ r.content.data) :
    (_format_results_as_markdown [] st
        = "No results found for your query using " ++ st ++ "."
      ∧ '#' ∉ (_format_results_as_markdown [] st).data)
    ∧ (results ≠ [] →
        (_format_results_as_markdown results st).data
            = ("## " ++ st ++ " Results\n\n").data
              ++ (sectionsFrom 1 results).data
        ∧ countOccur hashPat (_format_results_as_markdown results st).data
            = results.length) := by
  constructor
  · constructor
    · rfl
    · show '#' ∉ ("No results found for your query using " ++ st ++ ".").data
      simp only [data_append_eq, List.mem_append, not_or]
      exact ⟨⟨by decide, hst⟩, by decide⟩
  · intro hne
    have hfmt : _format_results_as_markdown results st
        = "## " ++ st ++ " Results\n\n" ++ sectionsFrom 1 results := by
      simp [_format_results_as_markdown, hne]
    refine ⟨by rw [hfmt, data_append_eq], ?_⟩
    rw [hfmt]
    have h1 : ("## " ++ st ++ " Results\n\n" ++ sectionsFrom 1 results).data
        = '#' :: '#' :: ' ' ::
          ((st.data ++ " Results\n\n".data)
            ++ (sectionsFrom 1 results).data) := by
      simp only [data_append_eq]
      rfl
    have hA : '#' ∉ st.data ++ " Results\n\n".data := by
      simp only [List.mem_append, not_or]
      exact ⟨hst, by decide⟩
    rw [h1, countOccur_heading, countOccur_append_no_hash _ _ hA,
      countOccur_sectionsFrom results 1 hclean]

/-- C6 witness: the theorem applied to mode "Keyword Search" and a
one-record list. -/
theorem C6_markdown_rendering_witness :
    ('#' ∉ ("Keyword Search" : String).data)
    ∧ ('#' ∉ ("Doc One" : String).data ∧ '#' ∉ ("Body text" : String).data)
    ∧ ((_format_results_as_markdown [] "Keyword Search"
          = "No results found for your query using " ++ "Keyword Search" ++ "."
        ∧ '#' ∉ (_format_results_as_markdown [] "Keyword Search").data)
       ∧ (([⟨"Doc One", "Body text", 1⟩] : List FormattedResult) ≠ [] →
          (_format_results_as_markdown [⟨"Doc One", "Body text", 1⟩]
              "Keyword Search").data
            = ("## " ++ "Keyword Search" ++ " Results\n\n").data
              ++ (sectionsFrom 1 [⟨"Doc One", "Body text", 1⟩]).data
          ∧ countOccur hashPat (_format_results_as_markdown
              [⟨"Doc One", "Body text", 1⟩] "Keyword Search").data
            = ([⟨"Doc One", "Body text", 1⟩] : List FormattedResult).length)) :=
  ⟨by decide, ⟨by decide, by decide⟩,
    C6_markdown_rendering "Keyword Search" [⟨"Doc One", "Body text", 1⟩]
      (by decide) (by decide)⟩

set_option maxRecDepth 40000 in
/-- C7: `keyword_search("laptop", top=2)` against the stub index holding 3
matching records produces a Markdown document with exactly 2 numbered
sections, each score rendered with exactly 2 decimal places (0.95 and
0.87). -/
theorem C7_keyword_two_sections :
    countOccur hashPat
        (keyword_search_tool (some laptopRemote) "laptop" 2).data = 2
    ∧ keyword_search_tool (some laptopRemote) "laptop" 2
      = "## Keyword Search Results\n\n### 1. Laptop A\nScore: 0.95\n\nA powerful laptop\n\n---\n\n### 2. Laptop B\nScore: 0.87\n\nA light laptop\n\n---\n\n" := by
  constructor
  · decide
  · decide

/-! ## Claim C3: configuration validation -/

/-- Is this call outcome a raised error? -/
def exceptIsError {α : Type} : Except String α → Bool
  | .error _ => true
  | .ok _ => false

/-- The message of a raised error (empty for a normal return). -/
def exceptErrorMsg {α : Type} : Except String α → String
  | .error m => m
  | .ok _ => ""

/-- An environment in which only `AZURE_SEARCH_INDEX_NAME` is missing. -/
def envMissingIndex : String → Option String := fun k =>
  if k == "AZURE_SEARCH_SERVICE_ENDPOINT" then
    some "https://example.search.windows.net"
  else if k == "AZURE_SEARCH_API_KEY" then some "key123"
  else none

/-- C3 counterexample: with only `AZURE_SEARCH_INDEX_NAME` unset,
construction fails as claimed, but the raised message is
`"Missing environment variables: AZURE_SEARCH_INDEX"`, which does not name
the missing environment variable `AZURE_SEARCH_INDEX_NAME`; so the error
does not name every missing key. -/
theorem C3_counterexample_missing_key_not_named :
    AzureSearchClient.init envMissingIndex
      = .error "Missing environment variables: AZURE_SEARCH_INDEX"
    ∧ containsSub "AZURE_SEARCH_INDEX_NAME".data
        "Missing environment variables: AZURE_SEARCH_INDEX".data = false := by
  constructor
  · decide
  · decide

/-- C3 (amended): if any required environment variable is missing or empty,
construction raises an error listing each missing entry under the source's
reporting label (`AZURE_SEARCH_SERVICE_ENDPOINT`, `AZURE_SEARCH_INDEX` —
the label used for a missing `AZURE_SEARCH_INDEX_NAME` — and
`AZURE_SEARCH_API_KEY`), the module-level client is left unset, and every
subsequent tool call returns the fixed "not initialized" string instead of
raising. -/
theorem C3_missing_configuration_amended (env : String → Option String)
    (remote : SearchRemote) (q : String) (top : Nat)
    (h : pyTruthy (env "AZURE_SEARCH_SERVICE_ENDPOINT") = false
      ∨ pyTruthy (env "AZURE_SEARCH_INDEX_NAME") = false
      ∨ pyTruthy (env "AZURE_SEARCH_API_KEY") = false) :
    exceptIsError (AzureSearchClient.init env) = true
    ∧ (pyTruthy (env "AZURE_SEARCH_SERVICE_ENDPOINT") = false →
        containsSub "AZURE_SEARCH_SERVICE_ENDPOINT".data
          (exceptErrorMsg (AzureSearchClient.init env)).data = true)
    ∧ (pyTruthy (env "AZURE_SEARCH_INDEX_NAME") = false →
        containsSub "AZURE_SEARCH_INDEX".data
          (exceptErrorMsg (AzureSearchClient.init env)).data = true)
    ∧ (pyTruthy (env "AZURE_SEARCH_API_KEY") = false →
        containsSub "AZURE_SEARCH_API_KEY".data
          (exceptErrorMsg (AzureSearchClient.init env)).data = true)
    ∧ searchClientGlobal env remote = none
    ∧ keyword_search_tool (searchClientGlobal env remote) q top
        = searchNotInitializedMsg
    ∧ vector_search_tool (searchClientGlobal env remote) q top
        = searchNotInitializedMsg
    ∧ hybrid_search_tool (searchClientGlobal env remote) q top
        = searchNotInitializedMsg := by
  cases hb1 : pyTruthy (env "AZURE_SEARCH_SERVICE_ENDPOINT") <;>
    cases hb2 : pyTruthy (env "AZURE_SEARCH_INDEX_NAME") <;>
      cases hb3 : pyTruthy (env "AZURE_SEARCH_API_KEY") <;>
        simp_all [AzureSearchClient.init, searchClientGlobal,
          keyword_search_tool, vector_search_tool, hybrid_search_tool,
          exceptIsError, exceptErrorMsg, searchNotInitializedMsg] <;>
        decide

/-- C3 witness: the theorem applied to the environment missing only
`AZURE_SEARCH_INDEX_NAME`. -/
theorem C3_missing_configuration_amended_witness :
    (pyTruthy (envMissingIndex "AZURE_SEARCH_INDEX_NAME") = false)
    ∧ (exceptIsError (AzureSearchClient.init envMissingIndex) = true
      ∧ (pyTruthy (envMissingIndex "AZURE_SEARCH_SERVICE_ENDPOINT") = false →
          containsSub "AZURE_SEARCH_SERVICE_ENDPOINT".data
            (exceptErrorMsg (AzureSearchClient.init envMissingIndex)).data
            = true)
      ∧ (pyTruthy (envMissingIndex "AZURE_SEARCH_INDEX_NAME") = false →
          containsSub "AZURE_SEARCH_INDEX".data
            (exceptErrorMsg (AzureSearchClient.init envMissingIndex)).data
            = true)
      ∧ (pyTruthy (envMissingIndex "AZURE_SEARCH_API_KEY") = false →
          containsSub "AZURE_SEARCH_API_KEY".data
            (exceptErrorMsg (AzureSearchClient.init envMissingIndex)).data
            = true)
      ∧ searchClientGlobal envMissingIndex laptopRemote = none
      ∧ keyword_search_tool (searchClientGlobal envMissingIndex laptopRemote)
          "laptop" 5 = searchNotInitializedMsg
      ∧ vector_search_tool (searchClientGlobal envMissingIndex laptopRemote)
          "laptop" 5 = searchNotInitializedMsg
      ∧ hybrid_search_tool (searchClientGlobal envMissingIndex laptopRemote)
          "laptop" 5 = searchNotInitializedMsg) :=
  ⟨by decide,
    C3_missing_configuration_amended envMissingIndex laptopRemote "laptop" 5
      (Or.inr (Or.inl (by decide)))⟩

/-! ## Stub agent environments -/

/-- An agent environment in which every remote call succeeds but the run
finishes with status `"failed"` and error "rate limited". -/
def envRunFailed : AgentEnv :=
  { getConnection := fun _ => .ok (some ⟨"conn-1"⟩)
  , createAgent := fun _ _ => .ok "agent-1"
  , createThread := .ok "thread-1"
  , createMessage := fun _ _ => .ok ()
  , createAndProcessRun := fun _ _ => .ok ⟨"failed", "rate limited"⟩
  , listMessages := fun _ => .ok none
  , deleteAgent := fun _ => .ok () }

/-- An agent environment in which every remote call succeeds, the run
completes, and the thread holds no agent message. -/
def envNoMessage : AgentEnv :=
  { getConnection := fun _ => .ok (some ⟨"conn-2"⟩)
  , createAgent := fun _ _ => .ok "agent-2"
  , createThread := .ok "thread-2"
  , createMessage := fun _ _ => .ok ()
  , createAndProcessRun := fun _ _ => .ok ⟨"completed", ""⟩
  , listMessages := fun _ => .ok none
  , deleteAgent := fun _ => .ok () }

/-- An agent environment in which `connections.get` returns a falsy value,
so both wrappers raise the "connection not found" fault. -/
def envConnMissing : AgentEnv :=
  { getConnection := fun _ => .ok none
  , createAgent := fun _ _ => .ok "agent-3"
  , createThread := .ok "thread-3"
  , createMessage := fun _ _ => .ok ()
  , createAndProcessRun := fun _ _ => .ok ⟨"completed", ""⟩
  , listMessages := fun _ => .ok none
  , deleteAgent := fun _ => .ok () }

/-- A remote index whose every call raises a transport fault. -/
def remoteBoom : SearchRemote := fun _ => .error "ServiceRequestError"

/-! ## Claim C1: agent resource cleanup -/

/-- C1 counterexample: a call to `search_index` that creates the agent and
then sees the run end with status `"failed"` returns the failure string
without ever issuing a delete of the created agent — the claimed
delete-on-every-exit-path property fails on the failed-run path. -/
theorem C1_counterexample_no_delete_on_failed_run :
    (AzureAIAgentClient.search_index envRunFailed "sc" "idx" "q" 5).result
      = .ok "Search failed: rate limited"
    ∧ (AzureAIAgentClient.search_index envRunFailed "sc" "idx" "q" 5).agentCreated
      = true
    ∧ (AzureAIAgentClient.search_index envRunFailed "sc" "idx" "q" 5).agentDeleted
      = false := by
  refine ⟨?_, ?_, ?_⟩ <;> decide

/-- C1 (amended): in both `search_index` and `web_search`, the created
agent resource is deleted only on the path where the run completes with a
status other than `"failed"` and the message listing succeeds; when the run
ends with status `"failed"`, or when the run call raises mid-call, the
wrapper exits without issuing a delete, leaking the created agent. -/
theorem C1_agent_cleanup_amended
    (env : AgentEnv) (sn bn ix q : String) (top : Nat)
    (conn1 conn2 : Connection) (aid1 aid2 tid : String)
    (run : RunResult) (err : String) (msgs : Option ResponseMessage)
    (hc1 : env.getConnection sn = .ok (some conn1))
    (ha1 : env.createAgent (searchInstructions q top) conn1.id = .ok aid1)
    (hc2 : env.getConnection bn = .ok (some conn2))
    (ha2 : env.createAgent (webInstructions q) conn2.id = .ok aid2)
    (ht : env.createThread = .ok tid)
    (hm : env.createMessage tid q = .ok ()) :
    ((env.createAndProcessRun tid aid1 = .ok run → run.status = "failed" →
        (AzureAIAgentClient.search_index env sn ix q top).agentCreated = true
        ∧ (AzureAIAgentClient.search_index env sn ix q top).agentDeleted
            = false)
     ∧ (env.createAndProcessRun tid aid1 = .error err →
        (AzureAIAgentClient.search_index env sn ix q top).agentCreated = true
        ∧ (AzureAIAgentClient.search_index env sn ix q top).agentDeleted
            = false)
     ∧ (env.createAndProcessRun tid aid1 = .ok run → run.status ≠ "failed" →
        env.listMessages tid = .ok msgs →
        (AzureAIAgentClient.search_index env sn ix q top).agentDeleted = true))
    ∧ ((env.createAndProcessRun tid aid2 = .ok run → run.status = "failed" →
        (AzureAIAgentClient.web_search env bn q).agentCreated = true
        ∧ (AzureAIAgentClient.web_search env bn q).agentDeleted = false)
     ∧ (env.createAndProcessRun tid aid2 = .error err →
        (AzureAIAgentClient.web_search env bn q).agentCreated = true
        ∧ (AzureAIAgentClient.web_search env bn q).agentDeleted = false)
     ∧ (env.createAndProcessRun tid aid2 = .ok run → run.status ≠ "failed" →
        env.listMessages tid = .ok msgs →
        (AzureAIAgentClient.web_search env bn q).agentDeleted = true)) := by
  refine ⟨⟨?_, ?_, ?_⟩, ⟨?_, ?_, ?_⟩⟩
  · intro hrun hfail
    simp [AzureAIAgentClient.search_index, hc1, ha1, ht, hm, hrun, hfail]
  · intro herr
    simp [AzureAIAgentClient.search_index, hc1, ha1, ht, hm, herr]
  · intro hrun hst hmsgs
    have hb : (run.status == "failed") = false := by simp [hst]
    cases hdel : env.deleteAgent aid1 <;>
      simp [AzureAIAgentClient.search_index, hc1, ha1, ht, hm, hrun, hb,
        hmsgs, hdel]
  · intro hrun hfail
    simp [AzureAIAgentClient.web_search, hc2, ha2, ht, hm, hrun, hfail]
  · intro herr
    simp [AzureAIAgentClient.web_search, hc2, ha2, ht, hm, herr]
  · intro hrun hst hmsgs
    have hb : (run.status == "failed") = false := by simp [hst]
    cases hdel : env.deleteAgent aid2 <;>
      simp [AzureAIAgentClient.web_search, hc2, ha2, ht, hm, hrun, hb,
        hmsgs, hdel]

/-- C1 witness: the amended theorem applied to the failed-run stub
environment, failed-status branch of `search_index`. -/
theorem C1_agent_cleanup_amended_witness :
    (envRunFailed.getConnection "sc" = .ok (some ⟨"conn-1"⟩))
    ∧ (envRunFailed.createAgent (searchInstructions "q" 5) "conn-1"
        = .ok "agent-1")
    ∧ (envRunFailed.createThread = .ok "thread-1")
    ∧ (envRunFailed.createMessage "thread-1" "q" = .ok ())
    ∧ (envRunFailed.createAndProcessRun "thread-1" "agent-1"
        = .ok ⟨"failed", "rate limited"⟩)
    ∧ ((AzureAIAgentClient.search_index envRunFailed "sc" "idx" "q" 5).agentCreated
        = true
      ∧ (AzureAIAgentClient.search_index envRunFailed "sc" "idx" "q" 5).agentDeleted
        = false) :=
  ⟨by decide, by decide, by decide, by decide, by decide,
    (C1_agent_cleanup_amended envRunFailed "sc" "bc" "idx" "q" 5
        ⟨"conn-1"⟩ ⟨"conn-1"⟩ "agent-1" "agent-1" "thread-1"
        ⟨"failed", "rate limited"⟩ "boom" none
        (by decide) (by decide) (by decide) (by decide) (by decide)
        (by decide)).1.1 (by decide) rfl⟩

/-! ## Claim C2: run failure returned, not raised -/

/-- C2 counterexample: with the stub run reporting status `"failed"` and
error "rate limited", the `web_search` tool does not return the literal
string `"Web search failed: rate limited"`: it returns that string wrapped
under the fixed `## Bing Web Search Results` heading. -/
theorem C2_counterexample_tool_wraps_heading :
    web_search_tool (some ⟨envRunFailed, "sc", "bc", "idx"⟩)
        "current weather in Paris"
      = "## Bing Web Search Results\n\nWeb search failed: rate limited"
    ∧ web_search_tool (some ⟨envRunFailed, "sc", "bc", "idx"⟩)
        "current weather in Paris"
      ≠ "Web search failed: rate limited" := by
  refine ⟨?_, ?_⟩ <;> decide

/-- C2 (amended): when the agent run completes with status `"failed"` and
error "rate limited", the wrapper returns the literal string
`"Web search failed: rate limited"` as a normal (non-raised) value — run
failure is the one outcome returned rather than raised — and the tool
returns that string under the fixed `## Bing Web Search Results`
heading. -/
theorem C2_run_failure_returned_amended
    (env : AgentEnv) (sn bn ix q : String) (conn : Connection)
    (aid tid : String)
    (hc : env.getConnection bn = .ok (some conn))
    (ha : env.createAgent (webInstructions q) conn.id = .ok aid)
    (ht : env.createThread = .ok tid)
    (hm : env.createMessage tid q = .ok ())
    (hr : env.createAndProcessRun tid aid = .ok ⟨"failed", "rate limited"⟩) :
    (AzureAIAgentClient.web_search env bn q).result
      = .ok "Web search failed: rate limited"
    ∧ web_search_tool (some ⟨env, sn, bn, ix⟩) q
      = "## Bing Web Search Results\n\nWeb search failed: rate limited" := by
  have hres : (AzureAIAgentClient.web_search env bn q).result
      = .ok "Web search failed: rate limited" := by
    simp [AzureAIAgentClient.web_search, hc, ha, ht, hm, hr]
  refine ⟨hres, ?_⟩
  simp [web_search_tool, hres]

/-- C2 witness: the amended theorem applied to the failed-run stub
environment. -/
theorem C2_run_failure_returned_amended_witness :
    (envRunFailed.getConnection "bc" = .ok (some ⟨"conn-1"⟩))
    ∧ (envRunFailed.createAgent (webInstructions "current weather in Paris")
        "conn-1" = .ok "agent-1")
    ∧ (envRunFailed.createThread = .ok "thread-1")
    ∧ (envRunFailed.createMessage "thread-1" "current weather in Paris"
        = .ok ())
    ∧ (envRunFailed.createAndProcessRun "thread-1" "agent-1"
        = .ok ⟨"failed", "rate limited"⟩)
    ∧ ((AzureAIAgentClient.web_search envRunFailed "bc"
          "current weather in Paris").result
        = .ok "Web search failed: rate limited"
      ∧ web_search_tool (some ⟨envRunFailed, "sc", "bc", "idx"⟩)
          "current weather in Paris"
        = "## Bing Web Search Results\n\nWeb search failed: rate limited") :=
  ⟨by decide, by decide, by decide, by decide, by decide,
    C2_run_failure_returned_amended envRunFailed "sc" "bc" "idx"
      "current weather in Paris" ⟨"conn-1"⟩ "agent-1" "thread-1"
      (by decide) (by decide) (by decide) (by decide) (by decide)⟩

/-! ## Claim C10: empty agent response -/

/-- C10: for both `search_index` and `web_search`, when the run completes
without status `"failed"` but the thread holds no agent message, the
wrapper returns the empty string and the tool returns exactly the fixed
top-level Markdown heading with an empty body; no fault is raised. -/
theorem C10_empty_response_heading_only
    (env : AgentEnv) (sn bn ix q : String) (top : Nat)
    (conn1 conn2 : Connection) (aid1 aid2 tid : String) (run : RunResult)
    (hc1 : env.getConnection sn = .ok (some conn1))
    (ha1 : env.createAgent (searchInstructions q top) conn1.id = .ok aid1)
    (hc2 : env.getConnection bn = .ok (some conn2))
    (ha2 : env.createAgent (webInstructions q) conn2.id = .ok aid2)
    (ht : env.createThread = .ok tid)
    (hm : env.createMessage tid q = .ok ())
    (hr1 : env.createAndProcessRun tid aid1 = .ok run)
    (hr2 : env.createAndProcessRun tid aid2 = .ok run)
    (hst : run.status ≠ "failed")
    (hl : env.listMessages tid = .ok none)
    (hd1 : env.deleteAgent aid1 = .ok ())
    (hd2 : env.deleteAgent aid2 = .ok ()) :
    (AzureAIAgentClient.search_index env sn ix q top).result = .ok ""
    ∧ search_index_tool (some ⟨env, sn, bn, ix⟩) q top
        = "## Azure AI Search Results\n\n"
    ∧ (AzureAIAgentClient.web_search env bn q).result = .ok ""
    ∧ web_search_tool (some ⟨env, sn, bn, ix⟩) q
        = "## Bing Web Search Results\n\n" := by
  have hb : (run.status == "failed") = false := by simp [hst]
  have hres1 : (AzureAIAgentClient.search_index env sn ix q top).result
      = .ok "" := by
    simp [AzureAIAgentClient.search_index, hc1, ha1, ht, hm, hr1, hb, hl,
      hd1, renderResponse]
  have hres2 : (AzureAIAgentClient.web_search env bn q).result = .ok "" := by
    simp [AzureAIAgentClient.web_search, hc2, ha2, ht, hm, hr2, hb, hl,
      hd2, renderResponse]
  refine ⟨hres1, ?_, hres2, ?_⟩
  · simp [search_index_tool, hres1]
  · simp [web_search_tool, hres2]

/-- C10 witness: the theorem applied to the no-message stub environment. -/
theorem C10_empty_response_heading_only_witness :
    (envNoMessage.getConnection "sc" = .ok (some ⟨"conn-2"⟩))
    ∧ (envNoMessage.createAndProcessRun "thread-2" "agent-2"
        = .ok ⟨"completed", ""⟩)
    ∧ (("completed" : String) ≠ "failed")
    ∧ (envNoMessage.listMessages "thread-2" = .ok none)
    ∧ ((AzureAIAgentClient.search_index envNoMessage "sc" "idx" "q" 5).result
        = .ok ""
      ∧ search_index_tool (some ⟨envNoMessage, "sc", "bc", "idx"⟩) "q" 5
        = "## Azure AI Search Results\n\n"
      ∧ (AzureAIAgentClient.web_search envNoMessage "bc" "q").result = .ok ""
      ∧ web_search_tool (some ⟨envNoMessage, "sc", "bc", "idx"⟩) "q"
        = "## Bing Web Search Results\n\n") :=
  ⟨by decide, by decide, by decide, by decide,
    C10_empty_response_heading_only envNoMessage "sc" "bc" "idx" "q" 5
      ⟨"conn-2"⟩ ⟨"conn-2"⟩ "agent-2" "agent-2" "thread-2" ⟨"completed", ""⟩
      (by decide) (by decide) (by decide) (by decide) (by decide) (by decide)
      (by decide) (by decide) (by decide) (by decide) (by decide)
      (by decide)⟩

/-! ## Claim C8: the dispatcher boundary -/

/-- C8: on both servers, whenever the forwarded wrapper call raises any
fault (connection-not-found, transport failure, or any other), the tool
returns the fault formatted as an error string prefixed with the
operation's name; in this embedding every tool is a total function into
`String`, so no fault crosses the boundary as a raised exception. -/
theorem C8_tools_format_all_faults
    (remote : SearchRemote) (c : AgentClient) (q : String) (top : Nat)
    (e1 e2 e3 e4 e5 : String)
    (h1 : remote (keywordRequest q top) = .error e1)
    (h2 : remote (vectorRequest q top "text_vector") = .error e2)
    (h3 : remote (hybridRequest q top "text_vector") = .error e3)
    (h4 : (AzureAIAgentClient.search_index c.env c.search_connection_name
        c.index_name q top).result = .error e4)
    (h5 : (AzureAIAgentClient.web_search c.env c.bing_connection_name
        q).result = .error e5) :
    keyword_search_tool (some remote) q top
      = "Error performing keyword search: " ++ e1
    ∧ vector_search_tool (some remote) q top
      = "Error performing vector search: " ++ e2
    ∧ hybrid_search_tool (some remote) q top
      = "Error performing hybrid search: " ++ e3
    ∧ search_index_tool (some c) q top
      = "Error performing index search: " ++ e4
    ∧ web_search_tool (some c) q
      = "Error performing web search: " ++ e5 := by
  refine ⟨?_, ?_, ?_, ?_, ?_⟩
  · simp [keyword_search_tool, AzureSearchClient.keyword_search, h1]
  · simp [vector_search_tool, AzureSearchClient.vector_search, h2]
  · simp [hybrid_search_tool, AzureSearchClient.hybrid_search, h3]
  · simp [search_index_tool, h4]
  · simp [web_search_tool, h5]

/-- C8 witness: the theorem applied to a transport-fault search stub and a
connection-not-found agent stub. -/
theorem C8_tools_format_all_faults_witness :
    (remoteBoom (keywordRequest "q" 5) = .error "ServiceRequestError")
    ∧ ((AzureAIAgentClient.search_index envConnMissing "sc" "idx" "q"
        5).result = .error "Connection \x27sc\x27 not found")
    ∧ (keyword_search_tool (some remoteBoom) "q" 5
        = "Error performing keyword search: " ++ "ServiceRequestError"
      ∧ vector_search_tool (some remoteBoom) "q" 5
        = "Error performing vector search: " ++ "ServiceRequestError"
      ∧ hybrid_search_tool (some remoteBoom) "q" 5
        = "Error performing hybrid search: " ++ "ServiceRequestError"
      ∧ search_index_tool (some ⟨envConnMissing, "sc", "bc", "idx"⟩) "q" 5
        = "Error performing index search: "
          ++ "Connection \x27sc\x27 not found"
      ∧ web_search_tool (some ⟨envConnMissing, "sc", "bc", "idx"⟩) "q"
        = "Error performing web search: "
          ++ "Connection \x27bc\x27 not found") :=
  ⟨by decide, by decide,
    C8_tools_format_all_faults remoteBoom ⟨envConnMissing, "sc", "bc", "idx"⟩
      "q" 5 "ServiceRequestError" "ServiceRequestError" "ServiceRequestError"
      "Connection \x27sc\x27 not found" "Connection \x27bc\x27 not found"
      (by decide) (by decide) (by decide) (by decide) (by decide)⟩
